import Mathlib

set_option maxRecDepth 400000

/-!
Verification of the comment-dispatch logic of `src/comment.ts`
(`CommentController`): mode dispatch, identity-tag computation,
pull-request-number resolution, previous-comment lookup and the
create/update decision.

The controller is embedded shallowly: every remote interaction performed by
`postComment` is recorded in a trace of `RemoteCall`s, and the responses the
remote platform would give are supplied up front in a `Remote` record (the
search results, the drained PR comment list, and the commit-comment pages).
Given those responses all control flow of `comment.ts` is deterministic, so
each method becomes a pure Lean function returning its result together with
the calls it issued.
-/

/-- Modelled from the spec: the `Inputs` record of `src/models.ts` is absent
from the sources; §3 and §6 of the spec list `commentMode` (none | pr |
commit), `updateComment` (boolean) and the five identity-relevant string
fields consumed by `comment.ts`. -/
structure Inputs where
  commentMode : String
  updateComment : Bool
  cdktfVersion : String
  terraformVersion : String
  workingDirectory : String
  stackName : String
  mode : String
  deriving Repr, DecidableEq

/-- The slice of `@actions/github`'s `Context` that `comment.ts` reads:
`context.repo`, `context.sha`, `context.payload.pull_request?.number` and
`context.payload.repository?.full_name`.  Absent optional fields are `none`;
`sha` is a string, `""` standing for an absent/empty SHA. -/
structure Context where
  owner : String
  repo : String
  sha : String
  pullRequestNumber : Option Nat
  repositoryFullName : Option String
  deriving Repr, DecidableEq

/-- A comment record as returned by the remote platform: an id and an
optional body (`comment.body?` in the source may be undefined). -/
structure RemoteComment where
  id : Nat
  body : Option String
  deriving Repr, DecidableEq

/-- The responses the remote platform gives during one invocation: the
numbers of the items returned by `search.issuesAndPullRequests`, the fully
drained comment list returned by `octokit.paginate` on the PR path, and the
pages yielded by `octokit.paginate.iterator` on the commit path. -/
structure Remote where
  searchItems : List Nat
  prComments : List RemoteComment
  commitPages : List (List RemoteComment)
  deriving Repr, DecidableEq

/-- One remote API interaction issued by the controller. -/
inductive RemoteCall where
  | search (q : String)
  | listPrComments (owner repo : String) (issue_number : Nat)
  | listCommitCommentsPage (owner repo : String) (commit_sha : String) (page : Nat)
  | createComment (owner repo : String) (issue_number : Nat) (body : String)
  | updateComment (owner repo : String) (comment_id : Nat) (body : String)
  | createCommitComment (owner repo : String) (commit_sha : String) (body : String)
  | updateCommitComment (owner repo : String) (comment_id : Nat) (body : String)
  deriving Repr, DecidableEq

/-- JavaScript truthiness of an optional number (`undefined` and `0` are
falsy). -/
def truthyNat : Option Nat → Bool
  | none => false
  | some n => n != 0

/-- JavaScript truthiness of an optional string (`undefined` and `""` are
falsy). -/
def truthyStr : Option String → Bool
  | none => false
  | some s => s != ""

/-- Whether the first character list is a prefix of the second. -/
def charsIsPrefixOf : List Char → List Char → Bool
  | [], _ => true
  | _ :: _, [] => false
  | a :: as, b :: bs => a == b && charsIsPrefixOf as bs

/-- Whether `pat` occurs as a contiguous run inside `s` (second argument
first character list). -/
def charsContainsSub : List Char → List Char → Bool
  | [], pat => charsIsPrefixOf pat []
  | c :: rest, pat => charsIsPrefixOf pat (c :: rest) || charsContainsSub rest pat

/-- JavaScript `String.prototype.includes`: substring containment; the empty
pattern is always contained. -/
def strIncludes (s pat : String) : Bool :=
  charsContainsSub s.data pat.data

/-- The match predicate of both previous-comment scans:
`comment.body?.includes(tag)` — an absent body is falsy. -/
def commentMatchesTag (comment : RemoteComment) (tag : String) : Bool :=
  match comment.body with
  | some b => strIncludes b tag
  | none => false

/-- Minimal JSON string escaping used by `JSON.stringify` on the option
values (backslash, quote and common control characters). -/
def jsonEscape (s : String) : String :=
  s.data.foldl
    (fun acc c =>
      acc ++
        (if c = '\\' then "\\\\"
         else if c = '"' then "\\\""
         else if c = '\n' then "\\n"
         else if c = '\t' then "\\t"
         else if c = '\r' then "\\r"
         else String.singleton c))
    ""

/-- A JSON string literal. -/
def jsonStr (s : String) : String :=
  "\"" ++ jsonEscape s ++ "\""

/-- `JSON.stringify(options)` for the options object built in
`getCommentTag`: the five identity fields, serialized in the key order of
the object literal. -/
def stringifyOptions (cdktfVersion terraformVersion workingDirectory stackName mode : String) :
    String :=
  "\x7b\"cdktfVersion\":" ++ jsonStr cdktfVersion ++
    ",\"terraformVersion\":" ++ jsonStr terraformVersion ++
    ",\"workingDirectory\":" ++ jsonStr workingDirectory ++
    ",\"stackName\":" ++ jsonStr stackName ++
    ",\"mode\":" ++ jsonStr mode ++ "\x7d"

/-- Models the external `crypto.createHash("md5").update(str).digest("hex")`
primitive, which the spec treats as an opaque deterministic digest: a fixed
computable deterministic function from strings to hex strings. -/
def hashString (str : String) : String :=
  let h := str.data.foldl (fun h c => (h * 131 + c.toNat) % (2 ^ 128)) 88172645463325252
  (Nat.toDigits 16 h).asString

/-- `CommentController.getCommentTag`: the HTML-comment identity tag
embedding the hash of the serialized identity-relevant option fields. -/
def getCommentTag (inputs : Inputs) : String :=
  let optionsHash :=
    hashString
      (stringifyOptions inputs.cdktfVersion inputs.terraformVersion inputs.workingDirectory
        inputs.stackName inputs.mode)
  "<!-- terraform cdk action for options with hash " ++ optionsHash ++ " -->"

/-- `CommentController.getPullNumber`: the resolved pull-request number (if
any) and the remote calls issued.  A direct `payload.pull_request?.number`
is returned when truthy; otherwise, when a payload repository full name is
truthy, one search call is issued and the first item's number (if any) is
returned. -/
def getPullNumber (context : Context) (remote : Remote) : Option Nat × List RemoteCall :=
  if truthyNat context.pullRequestNumber then
    (context.pullRequestNumber, [])
  else if truthyStr context.repositoryFullName = false then
    (none, [])
  else
    let q := "is:pr repo:" ++ context.repositoryFullName.getD "" ++ " sha:" ++ context.sha
    match remote.searchItems with
    | [] => (none, [RemoteCall.search q])
    | n :: _ => (some n, [RemoteCall.search q])

/-- `CommentController.fetchPreviousPrComment`: the first comment of the
drained list whose body contains the tag (the source's trailing
`!previousComment ? null : previousComment` only maps undefined to null,
which `Option` already expresses). -/
def fetchPreviousPrComment (commentList : List RemoteComment) (tag : String) :
    Option RemoteComment :=
  commentList.find? (fun comment => commentMatchesTag comment tag)

/-- `CommentController.fetchPreviousCommitComment`: iterate the pages of the
paginate iterator, returning the first matching comment and the number of
pages actually requested; the outer loop breaks as soon as a page yielded a
match, so no later page is fetched. -/
def fetchPreviousCommitComment (pages : List (List RemoteComment)) (tag : String) :
    Option RemoteComment × Nat :=
  match pages with
  | [] => (none, 0)
  | comments :: rest =>
    match comments.find? (fun comment => commentMatchesTag comment tag) with
    | some c => (some c, 1)
    | none =>
      let r := fetchPreviousCommitComment rest tag
      (r.1, r.2 + 1)

/-- `CommentController.postCommentOnPr`: resolve the pull number (keeping
the calls the resolution issued), abort when it is falsy, optionally look up
the previous tagged comment, then update it or create a new comment. -/
def postCommentOnPr (inputs : Inputs) (context : Context) (remote : Remote) (message : String) :
    List RemoteCall :=
  let pr := getPullNumber context remote
  if truthyNat pr.1 = false then pr.2
  else
    let pull_number := pr.1.getD 0
    let tag := getCommentTag inputs
    let messageWithTag := tag ++ "\n" ++ message
    let prev : Option RemoteComment × List RemoteCall :=
      if inputs.updateComment then
        (fetchPreviousPrComment remote.prComments tag,
          [RemoteCall.listPrComments context.owner context.repo pull_number])
      else (none, [])
    match prev.1 with
    | some previousComment =>
      pr.2 ++ prev.2 ++
        [RemoteCall.updateComment context.owner context.repo previousComment.id messageWithTag]
    | none =>
      pr.2 ++ prev.2 ++
        [RemoteCall.createComment context.owner context.repo pull_number messageWithTag]

/-- `CommentController.postCommentOnCommit`: abort when `context.sha` is
falsy, optionally scan the commit-comment pages (each page requested is one
listing call), then update the found comment or create a new commit
comment. -/
def postCommentOnCommit (inputs : Inputs) (context : Context) (remote : Remote)
    (message : String) : List RemoteCall :=
  let commit_sha := context.sha
  if commit_sha = "" then []
  else
    let tag := getCommentTag inputs
    let messageWithTag := tag ++ "\n" ++ message
    let prev : Option RemoteComment × List RemoteCall :=
      if inputs.updateComment then
        let r := fetchPreviousCommitComment remote.commitPages tag
        (r.1,
          (List.range r.2).map
            (fun i => RemoteCall.listCommitCommentsPage context.owner context.repo commit_sha
              (i + 1)))
      else (none, [])
    match prev.1 with
    | some previousComment =>
      prev.2 ++
        [RemoteCall.updateCommitComment context.owner context.repo previousComment.id
          messageWithTag]
    | none =>
      prev.2 ++ [RemoteCall.createCommitComment context.owner context.repo commit_sha
        messageWithTag]

/-- The observable outcome of `postComment`: the remote calls issued and the
argument of `core.setFailed`, when it was called (the method itself always
returns normally). -/
structure PostOutcome where
  calls : List RemoteCall
  failedMessage : Option String
  deriving Repr, DecidableEq

/-- `CommentController.postComment`: dispatch on `commentMode` — `none` is a
log-only no-op, `pr` and `commit` delegate, anything else reports a failed
step and returns. -/
def postComment (inputs : Inputs) (context : Context) (remote : Remote) (message : String) :
    PostOutcome :=
  if inputs.commentMode = "none" then ⟨[], none⟩
  else if inputs.commentMode = "pr" then
    ⟨postCommentOnPr inputs context remote message, none⟩
  else if inputs.commentMode = "commit" then
    ⟨postCommentOnCommit inputs context remote message, none⟩
  else ⟨[], some ("Unrecognized comment mode " ++ inputs.commentMode)⟩

/-- Classifier: update calls (issue-comment or commit-comment update). -/
def isUpdateCall : RemoteCall → Bool
  | RemoteCall.updateComment .. => true
  | RemoteCall.updateCommitComment .. => true
  | _ => false

/-- Classifier: create calls (issue-comment or commit-comment creation). -/
def isCreateCall : RemoteCall → Bool
  | RemoteCall.createComment .. => true
  | RemoteCall.createCommitComment .. => true
  | _ => false

/-- Classifier: write calls (create or update). -/
def isWriteCall (c : RemoteCall) : Bool :=
  isCreateCall c || isUpdateCall c

/-- Classifier: comment-listing calls (PR comment listing or one
commit-comment page). -/
def isListingCall : RemoteCall → Bool
  | RemoteCall.listPrComments .. => true
  | RemoteCall.listCommitCommentsPage .. => true
  | _ => false

/-- Classifier: search calls. -/
def isSearchCall : RemoteCall → Bool
  | RemoteCall.search _ => true
  | _ => false

/-- The `(comment_id, body)` of an update call, for either target kind. -/
def updateIdBody : RemoteCall → Option (Nat × String)
  | RemoteCall.updateComment _ _ id b => some (id, b)
  | RemoteCall.updateCommitComment _ _ id b => some (id, b)
  | _ => none

/-- The `(issue_number, body)` of an issue-comment creation. -/
def createIssueInfo : RemoteCall → Option (Nat × String)
  | RemoteCall.createComment _ _ n b => some (n, b)
  | _ => none

/-- The `(commit_sha, body)` of a commit-comment creation. -/
def createCommitInfo : RemoteCall → Option (String × String)
  | RemoteCall.createCommitComment _ _ sha b => some (sha, b)
  | _ => none

/-- The issue number a call addresses, when it addresses one (the
previous-comment listing and the comment creation on the PR path). -/
def issueNumberOf : RemoteCall → Option Nat
  | RemoteCall.listPrComments _ _ n => some n
  | RemoteCall.createComment _ _ n _ => some n
  | _ => none

/-! ## Helper lemmas -/

/-- The calls issued by `getPullNumber` are at most one search call. -/
theorem getPullNumber_snd_cases (context : Context) (remote : Remote) :
    (getPullNumber context remote).2 = [] ∨
      ∃ q, (getPullNumber context remote).2 = [RemoteCall.search q] := by
  unfold getPullNumber
  by_cases h1 : truthyNat context.pullRequestNumber
  · simp [h1]
  · by_cases h2 : truthyStr context.repositoryFullName = false
    · simp [h1, h2]
    · cases hs : remote.searchItems <;> simp [h1, h2, hs]

/-! ## Claims -/

/-- C3: the identity tag is a pure function of exactly the five
identity-relevant fields (`cdktfVersion`, `terraformVersion`,
`workingDirectory`, `stackName`, `mode`): two configurations agreeing on
these five fields yield byte-identical tags, regardless of the message
(which `getCommentTag` never reads) and of every other configuration
field. -/
theorem claim_C3 (i1 i2 : Inputs)
    (h1 : i1.cdktfVersion = i2.cdktfVersion)
    (h2 : i1.terraformVersion = i2.terraformVersion)
    (h3 : i1.workingDirectory = i2.workingDirectory)
    (h4 : i1.stackName = i2.stackName)
    (h5 : i1.mode = i2.mode) :
    getCommentTag i1 = getCommentTag i2 := by
  simp [getCommentTag, h1, h2, h3, h4, h5]

/-- Witness for C3 at concrete inputs differing in `commentMode` and
`updateComment`. -/
theorem claim_C3_witness :
    (Inputs.mk "pr" true "0.20.0" "1.8.0" "./" "dev" "plan-only").cdktfVersion =
        (Inputs.mk "commit" false "0.20.0" "1.8.0" "./" "dev" "plan-only").cdktfVersion ∧
      getCommentTag (Inputs.mk "pr" true "0.20.0" "1.8.0" "./" "dev" "plan-only") =
        getCommentTag (Inputs.mk "commit" false "0.20.0" "1.8.0" "./" "dev" "plan-only") :=
  ⟨rfl, claim_C3 _ _ rfl rfl rfl rfl rfl⟩

/-- C4: with `commentMode = "none"`, `postComment` performs zero remote
calls and returns normally (no failed step), for every message. -/
theorem claim_C4 (inputs : Inputs) (context : Context) (remote : Remote) (message : String)
    (h : inputs.commentMode = "none") :
    postComment inputs context remote message = ⟨[], none⟩ := by
  simp [postComment, h]

/-- Witness for C4 at a concrete configuration. -/
theorem claim_C4_witness :
    (Inputs.mk "none" true "a" "b" "c" "d" "e").commentMode = "none" ∧
      postComment (Inputs.mk "none" true "a" "b" "c" "d" "e")
          (Context.mk "octo" "rep" "abc123" (some 42) (some "octo/rep"))
          (Remote.mk [5] [RemoteComment.mk 7 (some "x")] [[RemoteComment.mk 9 none]]) "msg" =
        PostOutcome.mk [] none :=
  ⟨rfl, claim_C4 _ _ _ _ rfl⟩

/-- C8: any `commentMode` outside the set of recognized modes (none, pr,
commit) makes `postComment` report a failed step naming the unrecognized
mode, issue zero remote calls, and return normally without throwing. -/
theorem claim_C8 (inputs : Inputs) (context : Context) (remote : Remote) (message : String)
    (h1 : inputs.commentMode ≠ "none")
    (h2 : inputs.commentMode ≠ "pr")
    (h3 : inputs.commentMode ≠ "commit") :
    postComment inputs context remote message =
      ⟨[], some ("Unrecognized comment mode " ++ inputs.commentMode)⟩ := by
  simp [postComment, h1, h2, h3]

/-- Witness for C8 at the unrecognized mode `"banana"`. -/
theorem claim_C8_witness :
    (Inputs.mk "banana" true "a" "b" "c" "d" "e").commentMode ≠ "none" ∧
      postComment (Inputs.mk "banana" true "a" "b" "c" "d" "e")
          (Context.mk "octo" "rep" "abc123" (some 42) (some "octo/rep"))
          (Remote.mk [5] [] []) "msg" =
        PostOutcome.mk [] (some "Unrecognized comment mode banana") :=
  ⟨by decide, claim_C8 _ _ _ _ (by decide) (by decide) (by decide)⟩

/-- C1: with `updateComment = true`, a resolved target and a previous
tagged comment found (`pc`), `postComment` issues exactly one update call —
with `comment_id = pc.id` and body `tag ++ "\n" ++ message` — and zero
create calls, on both the PR and the commit path. -/
theorem claim_C1 (inputs : Inputs) (context : Context) (remote : Remote) (message : String)
    (pc : RemoteComment)
    (hu : inputs.updateComment = true)
    (hpath :
      (inputs.commentMode = "pr" ∧ truthyNat (getPullNumber context remote).1 = true ∧
        fetchPreviousPrComment remote.prComments (getCommentTag inputs) = some pc) ∨
      (inputs.commentMode = "commit" ∧ context.sha ≠ "" ∧
        (fetchPreviousCommitComment remote.commitPages (getCommentTag inputs)).1 = some pc)) :
    (postComment inputs context remote message).calls.filterMap updateIdBody =
        [(pc.id, getCommentTag inputs ++ "\n" ++ message)] ∧
      (postComment inputs context remote message).calls.filter isCreateCall = [] := by
  rcases hpath with ⟨hm, ht, hf⟩ | ⟨hm, hs, hf⟩
  · simp only [postComment, hm]
    rcases getPullNumber_snd_cases context remote with h | ⟨q, h⟩ <;>
      simp [postCommentOnPr, ht, hu, hf, h, updateIdBody, isCreateCall]
  · simp only [postComment, hm]
    simp [postCommentOnCommit, hs, hu, hf, updateIdBody, isCreateCall, List.filterMap_map,
      List.filter_map, Function.comp]

/-- Concrete scenario for C1: mode `commit`, sha `"abc123"`,
`updateComment = true`, one existing tagged comment (id 7) on page 1. -/
def c1Inputs : Inputs := Inputs.mk "commit" true "0.20.0" "1.8.0" "./" "dev" "plan"

/-- The existing tagged comment of the C1 scenario. -/
def c1Comment : RemoteComment := RemoteComment.mk 7 (some ("status: " ++ getCommentTag c1Inputs))

/-- The execution context of the C1 scenario. -/
def c1Context : Context := Context.mk "octo" "rep" "abc123" none none

/-- The remote responses of the C1 scenario. -/
def c1Remote : Remote := Remote.mk [] [] [[c1Comment]]

/-- Witness for C1 at the concrete commit-path scenario. -/
theorem claim_C1_witness :
    (c1Inputs.updateComment = true ∧ c1Context.sha ≠ "" ∧
        (fetchPreviousCommitComment c1Remote.commitPages (getCommentTag c1Inputs)).1 =
          some c1Comment) ∧
      (postComment c1Inputs c1Context c1Remote "msg").calls.filterMap updateIdBody =
          [(c1Comment.id, getCommentTag c1Inputs ++ "\n" ++ "msg")] ∧
        (postComment c1Inputs c1Context c1Remote "msg").calls.filter isCreateCall = [] :=
  ⟨⟨rfl, by decide, by decide⟩,
    claim_C1 c1Inputs c1Context c1Remote "msg" c1Comment rfl
      (Or.inr ⟨rfl, by decide, by decide⟩)⟩

/-- C2: with a resolved target and either `updateComment = false` or no
previous tagged comment found, `postComment` issues exactly one create call
— on the resolved pull number (PR path) or the commit SHA (commit path),
with body `tag ++ "\n" ++ message` — and zero update calls. -/
theorem claim_C2 (inputs : Inputs) (context : Context) (remote : Remote) (message : String)
    (hpath :
      (inputs.commentMode = "pr" ∧ truthyNat (getPullNumber context remote).1 = true ∧
        (inputs.updateComment = false ∨
          fetchPreviousPrComment remote.prComments (getCommentTag inputs) = none)) ∨
      (inputs.commentMode = "commit" ∧ context.sha ≠ "" ∧
        (inputs.updateComment = false ∨
          (fetchPreviousCommitComment remote.commitPages (getCommentTag inputs)).1 = none))) :
    (postComment inputs context remote message).calls.filter isUpdateCall = [] ∧
      ((inputs.commentMode = "pr" ∧
          (postComment inputs context remote message).calls.filterMap createIssueInfo =
            [((getPullNumber context remote).1.getD 0,
              getCommentTag inputs ++ "\n" ++ message)] ∧
          (postComment inputs context remote message).calls.filterMap createCommitInfo = []) ∨
        (inputs.commentMode = "commit" ∧
          (postComment inputs context remote message).calls.filterMap createCommitInfo =
            [(context.sha, getCommentTag inputs ++ "\n" ++ message)] ∧
          (postComment inputs context remote message).calls.filterMap createIssueInfo = [])) := by
  rcases hpath with ⟨hm, ht, hor⟩ | ⟨hm, hs, hor⟩
  · simp only [postComment, hm]
    cases hu : inputs.updateComment
    · rcases getPullNumber_snd_cases context remote with h | ⟨q, h⟩ <;>
        simp [postCommentOnPr, ht, hu, h, isUpdateCall, createIssueInfo, createCommitInfo, hm]
    · have hf : fetchPreviousPrComment remote.prComments (getCommentTag inputs) = none := by
        rcases hor with h | h
        · rw [hu] at h; cases h
        · exact h
      rcases getPullNumber_snd_cases context remote with h | ⟨q, h⟩ <;>
        simp [postCommentOnPr, ht, hu, hf, h, isUpdateCall, createIssueInfo, createCommitInfo, hm]
  · simp only [postComment, hm]
    cases hu : inputs.updateComment
    · simp [postCommentOnCommit, hs, hu, isUpdateCall, createIssueInfo, createCommitInfo, hm]
    · have hf :
          (fetchPreviousCommitComment remote.commitPages (getCommentTag inputs)).1 = none := by
        rcases hor with h | h
        · rw [hu] at h; cases h
        · exact h
      simp [postCommentOnCommit, hs, hu, hf, isUpdateCall, createIssueInfo, createCommitInfo, hm,
        List.filterMap_map, List.filter_map, Function.comp]

/-- Concrete scenario for C2: mode `pr`, `updateComment = true`, direct PR
number 42, two pages of existing comments none of which carries the tag. -/
def c2Inputs : Inputs := Inputs.mk "pr" true "0.20.0" "1.8.0" "./" "dev" "plan"

/-- The execution context of the C2 scenario (direct PR number 42). -/
def c2Context : Context := Context.mk "octo" "rep" "abc123" (some 42) (some "octo/rep")

/-- The remote responses of the C2 scenario: the drained two pages of
comments, none tagged. -/
def c2Remote : Remote :=
  Remote.mk [] [RemoteComment.mk 1 (some "first"), RemoteComment.mk 2 none,
    RemoteComment.mk 3 (some "third")] []

/-- Witness for C2 at the concrete PR-path scenario. -/
theorem claim_C2_witness :
    (c2Inputs.commentMode = "pr" ∧ truthyNat (getPullNumber c2Context c2Remote).1 = true ∧
        fetchPreviousPrComment c2Remote.prComments (getCommentTag c2Inputs) = none) ∧
      (postComment c2Inputs c2Context c2Remote "msg").calls.filter isUpdateCall = [] ∧
        ((postComment c2Inputs c2Context c2Remote "msg").calls.filterMap createIssueInfo =
            [((getPullNumber c2Context c2Remote).1.getD 0,
              getCommentTag c2Inputs ++ "\n" ++ "msg")] ∧
          (postComment c2Inputs c2Context c2Remote "msg").calls.filterMap createCommitInfo =
            []) :=
  ⟨⟨rfl, by decide, by decide⟩,
    match claim_C2 c2Inputs c2Context c2Remote "msg"
        (Or.inl ⟨rfl, by decide, Or.inr (by decide)⟩) with
    | ⟨h1, Or.inl ⟨_, h2, h3⟩⟩ => ⟨h1, h2, h3⟩
    | ⟨h1, Or.inr ⟨hc, _, _⟩⟩ => absurd hc (by decide)⟩

/-- If there is no truthy direct PR number and either the payload repository
full name is falsy or the search returns no items, `getPullNumber` resolves
no pull number. -/
theorem getPullNumber_fst_none (context : Context) (remote : Remote)
    (hd : truthyNat context.pullRequestNumber = false)
    (hor : truthyStr context.repositoryFullName = false ∨ remote.searchItems = []) :
    (getPullNumber context remote).1 = none := by
  unfold getPullNumber
  rcases hor with h | h
  · simp [hd, h]
  · cases h2 : truthyStr context.repositoryFullName <;> simp [hd, h2, h]

/-- C5: unresolvable targets are soft no-ops — on the PR path, with no
truthy direct PR number and either no payload repository full name or an
empty search result, `postComment` performs zero write calls; on the commit
path, with an empty commit SHA, it performs zero remote calls; in both
cases it returns normally (no failed step is reported and nothing is
raised). -/
theorem claim_C5 (inputs : Inputs) (context : Context) (remote : Remote) (message : String)
    (hpath :
      (inputs.commentMode = "pr" ∧ truthyNat context.pullRequestNumber = false ∧
        (truthyStr context.repositoryFullName = false ∨ remote.searchItems = [])) ∨
      (inputs.commentMode = "commit" ∧ context.sha = "")) :
    (postComment inputs context remote message).calls.filter isWriteCall = [] ∧
      (postComment inputs context remote message).failedMessage = none ∧
      (inputs.commentMode = "commit" →
        (postComment inputs context remote message).calls = []) := by
  rcases hpath with ⟨hm, hd, hor⟩ | ⟨hm, hs⟩
  · have hn := getPullNumber_fst_none context remote hd hor
    have ht : truthyNat (getPullNumber context remote).1 = false := by
      rw [hn]; rfl
    simp only [postComment, hm]
    rcases getPullNumber_snd_cases context remote with h | ⟨q, h⟩ <;>
      simp [postCommentOnPr, ht, h, isWriteCall, isCreateCall, isUpdateCall]
  · simp only [postComment, hm]
    simp [postCommentOnCommit, hs]

/-- Concrete scenario for C5: mode `pr`, no direct PR number, a payload
repository full name, and an empty search result. -/
def c5Context : Context := Context.mk "octo" "rep" "abc123" none (some "octo/rep")

/-- The remote responses of the C5 scenario (search finds nothing). -/
def c5Remote : Remote := Remote.mk [] [] []

/-- Witness for C5 at the concrete PR-path scenario. -/
theorem claim_C5_witness :
    (truthyNat c5Context.pullRequestNumber = false ∧ c5Remote.searchItems = []) ∧
      (postComment c2Inputs c5Context c5Remote "msg").calls.filter isWriteCall = [] ∧
        (postComment c2Inputs c5Context c5Remote "msg").failedMessage = none :=
  ⟨⟨by decide, rfl⟩,
    (claim_C5 c2Inputs c5Context c5Remote "msg" (Or.inl ⟨rfl, by decide, Or.inr rfl⟩)).1,
    (claim_C5 c2Inputs c5Context c5Remote "msg" (Or.inl ⟨rfl, by decide, Or.inr rfl⟩)).2.1⟩

/-- C6: on the PR path with no truthy direct PR number but a truthy payload
repository full name, when the search returns at least one item the first
item's number is the resolved pull number, and every issued call that
addresses an issue number (the previous-comment listing and the comment
creation) addresses exactly that number. -/
theorem claim_C6 (inputs : Inputs) (context : Context) (remote : Remote) (message : String)
    (n : Nat) (rest : List Nat)
    (hmode : inputs.commentMode = "pr")
    (hno : truthyNat context.pullRequestNumber = false)
    (hrepo : truthyStr context.repositoryFullName = true)
    (hsearch : remote.searchItems = n :: rest) :
    (getPullNumber context remote).1 = some n ∧
      ∀ c ∈ (postComment inputs context remote message).calls,
        ∀ m, issueNumberOf c = some m → m = n := by
  have hpn : getPullNumber context remote =
      (some n,
        [RemoteCall.search
          ("is:pr repo:" ++ context.repositoryFullName.getD "" ++ " sha:" ++ context.sha)]) := by
    unfold getPullNumber
    simp [hno, hrepo, hsearch]
  refine ⟨by rw [hpn], ?_⟩
  simp only [postComment, hmode]
  by_cases hz : n = 0
  · subst hz
    simp [postCommentOnPr, hpn, truthyNat, issueNumberOf]
  · have ht : truthyNat (some n) = true := by simp [truthyNat, hz]
    cases hu : inputs.updateComment
    · simp [postCommentOnPr, hpn, ht, hu, issueNumberOf]
    · cases hf : fetchPreviousPrComment remote.prComments (getCommentTag inputs) <;>
        simp [postCommentOnPr, hpn, ht, hu, hf, issueNumberOf]

/-- Concrete scenario for C6: no direct PR number, search returns items
numbered 42 then 13. -/
def c6Remote : Remote := Remote.mk [42, 13] [] []

/-- Witness for C6 at the concrete search scenario: the first search item's
number is resolved. -/
theorem claim_C6_witness :
    (truthyNat c5Context.pullRequestNumber = false ∧
        truthyStr c5Context.repositoryFullName = true ∧ c6Remote.searchItems = [42, 13]) ∧
      (getPullNumber c5Context c6Remote).1 = some 42 :=
  ⟨⟨by decide, by decide, rfl⟩,
    (claim_C6 c2Inputs c5Context c6Remote "msg" 42 [13] rfl (by decide) (by decide) rfl).1⟩

/-- C9: with `updateComment = false`, `postComment` never issues a
comment-listing call on either path, and every call it does issue is a
search (target resolution) or a create. -/
theorem claim_C9 (inputs : Inputs) (context : Context) (remote : Remote) (message : String)
    (hu : inputs.updateComment = false) :
    (postComment inputs context remote message).calls.filter isListingCall = [] ∧
      ∀ c ∈ (postComment inputs context remote message).calls,
        isSearchCall c = true ∨ isCreateCall c = true := by
  by_cases h0 : inputs.commentMode = "none"
  · simp [postComment, h0]
  by_cases h1 : inputs.commentMode = "pr"
  · simp only [postComment, h0, h1, if_true, if_false]
    cases ht : truthyNat (getPullNumber context remote).1 <;>
      rcases getPullNumber_snd_cases context remote with h | ⟨q, h⟩ <;>
        simp [postCommentOnPr, ht, hu, h, isListingCall, isSearchCall, isCreateCall]
  by_cases h2 : inputs.commentMode = "commit"
  · simp only [postComment, h0, h1, h2, if_true, if_false]
    by_cases hs : context.sha = "" <;>
      simp [postCommentOnCommit, hs, hu, isListingCall, isSearchCall, isCreateCall]
  · simp [postComment, h0, h1, h2]

/-- Concrete scenario for C9: mode `pr`, `updateComment = false`, direct PR
number 42, existing comments present that are never listed. -/
def c9Inputs : Inputs := Inputs.mk "pr" false "0.20.0" "1.8.0" "./" "dev" "plan"

/-- Witness for C9 at the concrete scenario. -/
theorem claim_C9_witness :
    c9Inputs.updateComment = false ∧
      (postComment c9Inputs c2Context c2Remote "msg").calls.filter isListingCall = [] :=
  ⟨rfl, (claim_C9 c9Inputs c2Context c2Remote "msg" rfl).1⟩

/-- When no comment of the pages before `page` matches and `page` has a
first matching comment `c`, the commit-comment scan returns `c` after
requesting exactly the pages up to and including `page`. -/
theorem fetchPreviousCommitComment_of_split (tag : String) (pre : List (List RemoteComment))
    (page : List RemoteComment) (post : List (List RemoteComment)) (c : RemoteComment)
    (hpre : ∀ p ∈ pre, ∀ cm ∈ p, commentMatchesTag cm tag = false)
    (hfind : page.find? (fun cm => commentMatchesTag cm tag) = some c) :
    fetchPreviousCommitComment (pre ++ page :: post) tag = (some c, pre.length + 1) := by
  induction pre with
  | nil => simp [fetchPreviousCommitComment, hfind]
  | cons p ps ih =>
    have hp : p.find? (fun cm => commentMatchesTag cm tag) = none := by
      rw [List.find?_eq_none]
      intro x hx
      simp [hpre p (by simp) x hx]
    have hps : ∀ q ∈ ps, ∀ cm ∈ q, commentMatchesTag cm tag = false := by
      intro q hq cm hcm
      exact hpre q (by simp [hq]) cm hcm
    simp [fetchPreviousCommitComment, hp, ih hps]

/-- C7: on the commit path with `updateComment = true`, the paginated scan
short-circuits — when the pages split as `pre ++ page :: post` with no
match in `pre` and first match `c` in `page`, the scan returns `c` having
requested exactly `pre.length + 1` pages, and `postComment` issues exactly
`pre.length + 1` page-listing calls (none for the pages after the
match). -/
theorem claim_C7 (inputs : Inputs) (context : Context) (remote : Remote) (message : String)
    (pre : List (List RemoteComment)) (page : List RemoteComment)
    (post : List (List RemoteComment)) (c : RemoteComment)
    (hmode : inputs.commentMode = "commit") (hsha : context.sha ≠ "")
    (hu : inputs.updateComment = true)
    (hpages : remote.commitPages = pre ++ page :: post)
    (hpre : ∀ p ∈ pre, ∀ cm ∈ p, commentMatchesTag cm (getCommentTag inputs) = false)
    (hfind : page.find? (fun cm => commentMatchesTag cm (getCommentTag inputs)) = some c) :
    fetchPreviousCommitComment remote.commitPages (getCommentTag inputs) =
        (some c, pre.length + 1) ∧
      ((postComment inputs context remote message).calls.filter isListingCall).length =
        pre.length + 1 := by
  have hfetch :=
    fetchPreviousCommitComment_of_split (getCommentTag inputs) pre page post c hpre hfind
  rw [hpages]
  refine ⟨hfetch, ?_⟩
  simp only [postComment, hmode]
  simp [postCommentOnCommit, hsha, hu, hpages, hfetch, isListingCall, List.filter_append,
    List.filter_map, Function.comp, isUpdateCall]
  have hcomp :
      (isListingCall ∘ fun i =>
        RemoteCall.listCommitCommentsPage context.owner context.repo context.sha (i + 1)) =
        fun _ => true := by
    funext i
    rfl
  simp [hcomp]

/-- Concrete scenario for C7: an unmatched first page, a matching second
page, and a third page that must never be requested. -/
def c7Comment : RemoteComment := RemoteComment.mk 7 (some ("note " ++ getCommentTag c1Inputs))

/-- The pages of the C7 scenario. -/
def c7Remote : Remote :=
  Remote.mk [] []
    [[RemoteComment.mk 1 (some "first"), RemoteComment.mk 2 none], [c7Comment],
      [RemoteComment.mk 9 (some "later")]]

/-- Witness for C7 at the concrete three-page scenario: two pages are
requested, not three. -/
theorem claim_C7_witness :
    fetchPreviousCommitComment c7Remote.commitPages (getCommentTag c1Inputs) =
        (some c7Comment, 2) ∧
      ((postComment c1Inputs c1Context c7Remote "msg").calls.filter isListingCall).length = 2 :=
  claim_C7 c1Inputs c1Context c7Remote "msg"
    [[RemoteComment.mk 1 (some "first"), RemoteComment.mk 2 none]] [c7Comment]
    [[RemoteComment.mk 9 (some "later")]] c7Comment rfl (by decide) rfl rfl (by decide)
    (by decide)

/-- The match predicate of both scans holds exactly when the comment has a
body that contains the tag. -/
theorem commentMatchesTag_eq_true (c : RemoteComment) (tag : String) :
    commentMatchesTag c tag = true ↔ ∃ b, c.body = some b ∧ strIncludes b tag = true := by
  cases hb : c.body <;> simp [commentMatchesTag, hb]

/-- A comment returned by the commit-comment scan satisfies the match
predicate. -/
theorem fetchPreviousCommitComment_fst_matches (pages : List (List RemoteComment))
    (tag : String) (c : RemoteComment)
    (h : (fetchPreviousCommitComment pages tag).1 = some c) :
    commentMatchesTag c tag = true := by
  induction pages with
  | nil => simp [fetchPreviousCommitComment] at h
  | cons p ps ih =>
    rw [fetchPreviousCommitComment] at h
    cases hf : p.find? (fun cm => commentMatchesTag cm tag) with
    | some c0 =>
      rw [hf] at h
      simp at h
      subst h
      simpa using List.find?_some hf
    | none =>
      rw [hf] at h
      simp at h
      exact ih h

/-- C10: both previous-comment scans are total over comment lists that
include body-less records, and a record whose body is absent is never
selected: any comment either scan returns has a present body that contains
the identity tag. -/
theorem claim_C10 (commentList : List RemoteComment) (pages : List (List RemoteComment))
    (tag : String) :
    (∀ c, fetchPreviousPrComment commentList tag = some c →
        ∃ b, c.body = some b ∧ strIncludes b tag = true) ∧
      ∀ c, (fetchPreviousCommitComment pages tag).1 = some c →
        ∃ b, c.body = some b ∧ strIncludes b tag = true := by
  constructor
  · intro c hc
    exact (commentMatchesTag_eq_true c tag).mp (by simpa using List.find?_some hc)
  · intro c hc
    exact (commentMatchesTag_eq_true c tag).mp
      (fetchPreviousCommitComment_fst_matches pages tag c hc)

/-- Concrete scenario for C10: a body-less record precedes the tagged
comment and is skipped without failure. -/
def c10Tagged : RemoteComment := RemoteComment.mk 3 (some ("x " ++ getCommentTag c1Inputs))

/-- The comment list of the C10 scenario. -/
def c10List : List RemoteComment := [RemoteComment.mk 1 none, c10Tagged]

/-- Witness for C10: the scan over a list starting with a body-less record
returns the later tagged comment, whose body is present. -/
theorem claim_C10_witness :
    fetchPreviousPrComment c10List (getCommentTag c1Inputs) = some c10Tagged ∧
      ∃ b, c10Tagged.body = some b ∧ strIncludes b (getCommentTag c1Inputs) = true :=
  ⟨by decide, (claim_C10 c10List [] (getCommentTag c1Inputs)).1 c10Tagged (by decide)⟩
